import Mathlib

/-
Verification of the tool-calling orchestration loop of the simple_slack_agent
repository, against its natural-language specification.

The embedding is shallow: the pure control flow of the Python functions is
translated into Lean functions, and every interaction with the outside world
(the inference client, the filesystem, subprocesses, the messenger channel)
is made an explicit input (an oracle value) or an explicit output trace.
All definitions follow src/agents/search_agent/search_agent.py,
src/main.py and src/agents/slack_agent/main.py; deviations forced by the
embedding are documented at each definition.
-/

set_option linter.unusedVariables false

namespace SearchAgent

/-- Roles of chat messages, from the `UserRole` enum of the source. -/
inductive UserRole
  | system
  | user
  | assistant
  | tool
deriving DecidableEq

/-- A chat message, from the `Message` pydantic model of the source
(role plus text content). -/
structure Message where
  role : UserRole
  content : String
deriving DecidableEq

/-- The `AgentLocalState` pydantic model of the source: the message log and
the current task description. -/
structure AgentLocalState where
  messages : List Message
  current_task : String
deriving DecidableEq

/-- The keyword-argument dictionary passed to a selected tool, restricted to
the keys that the special-cased branches of `ToolCaller.action` read:
`message` (for `ask_to_user` / `complete`), and `current_task` / `context`
(for `refine_task`).  Each claim under verification stipulates which keys are
present, so the dictionary is modelled as this fixed record. -/
structure ToolArgs where
  message : String
  current_task : String
  context : String
deriving DecidableEq

/-- Outcome of one `select_tool` call, as consumed by `ToolCaller.action`.
In the source, `select_tool` returns a triple: either
`(function_name, arguments, None)` when the model emitted a tool call, or
`(None, None, text)` when it did not (the text being the streamed content
after the reasoning marker, or a failure-tagged string when the inference
call itself raised).  The inference call is external, so the outcome is an
input of the embedding. -/
inductive SelectOutcome
  | noTool (all_messages : String)
  | toolCall (function_name : String) (arguments : ToolArgs)
deriving DecidableEq

/-- Outcome of executing a (registered, non-special) tool body, or of a
filesystem call: the body either returns a string, or raises a Python
exception whose `str` is `msg`.  Tool bodies perform external I/O, so their
outcome is an input of the embedding. -/
inductive ExecOutcome
  | ok (output : String)
  | exn (msg : String)
deriving DecidableEq

/-- The keys of `self.available_functions` in `ToolCaller.__init__`:
the `__name__` of each function in `self.tools`, in registration order. -/
def toolNames : List String :=
  ["read_file", "write_file", "run_command", "report_to_user", "ask_to_user",
   "complete", "search", "infer_knowledge_by_url", "refine_task"]

/-- Placeholder assistant text used when the selector returned no tool and an
empty text (source: `"ツールを使用しませんでした。"`). -/
def noToolPlaceholder : String := "ツールを使用しませんでした。"

/-- The user-role nudge appended after a non-terminal no-tool turn. -/
def noToolNudge (current_task : String) : String :=
  "ツールが選択されませんでした。\nタスク: " ++ current_task ++
  "\nを遂行するために、どのツールを使うべきか考えてください。"

/-- The canned termination message built on the third consecutive no-tool
turn (source: `complete_message` in `ToolCaller.action`). -/
def cannedTerminationMessage : String :=
  "過去3回ツールが選択されなかったため、タスクを終了します。"

/-- A Python exception rendered as the `<failed>` wrapper used for tool
results (source: `f"<failed>\n{str(e)}\n</failed>"`, built by
concatenation here). -/
def failWrap (e : String) : String := "<failed>\n" ++ e ++ "\n</failed>"

/-- The assistant note appended when a dispatched tool raised. -/
def toolFailNote (e : String) : String := "ツールの実行に失敗しました: " ++ e

/-- The assistant note announcing which tool is being run
(source: `str(function_name) + "を実行します"`). -/
def runNote (function_name : String) : String := function_name ++ "を実行します"

/-- The terminal assistant entry appended by the `complete` branch. -/
def completeNote (current_task : String) : String :=
  "タスク「" ++ current_task ++ "」を完了しました。結果をA2Aクライアントに返します。"

/-- The user-role result message appended after a successful generic tool
dispatch, wrapping the output in `<result>` tags and restating the task. -/
def toolResultMessage (function_name output current_task : String) : String :=
  "tool used: " ++ function_name ++ "\n<result>\n" ++ output ++
  "\n</result>\nこれを踏まえて、次に何をするべきか考えてください。\n\nタスク: " ++ current_task

/-- In the source, `refine_task` is a local closure declared as
`def refine_task(self, current_task, context)` even though it is not a
method, so its first parameter `self` is a required argument.  The dispatch
site calls it as `function_to_call(**arguments)` with only the keys
`current_task` and `context`, so Python raises a `TypeError` before the body
runs.  This is the `str` of that exception. -/
def refineTaskTypeError : String :=
  "refine_task() missing 1 required positional argument: self"

/-- Result of one `ToolCaller.action` call.  Besides the returned triple
`(state, wait_for_user, done)` of the source, the embedding makes explicit:
`no_tool_count`, the value of `self.no_tool_count` after the call;
`sends`, the arguments of the `messenger.send` calls that were actually
executed or scheduled (via `asyncio.run_coroutine_threadsafe`) during the
call, in order; and `dispatched`, the names of the tools whose bodies began
executing during the call.  Sends performed inside a generic tool body are
part of that body's `ExecOutcome` oracle and are not tracked in `sends`. -/
structure ActionResult where
  state : AgentLocalState
  wait_for_user : Bool
  done : Bool
  no_tool_count : Nat
  sends : List String
  dispatched : List String
deriving DecidableEq

/-- Shallow embedding of `ToolCaller.action`.

Inputs: the `AgentLocalState`, the current `self.no_tool_count`, the
`select_tool` outcome, and the `ExecOutcome` oracle for the body of a
generic dispatched tool.

Branches, following the source line by line:
- no tool selected: increment the counter; once it reaches 3, look up the
  async `complete` tool and call it WITHOUT `await`
  (`function_to_call(message=complete_message)`), which in Python only
  creates a coroutine object and never runs the body, so no
  `messenger.send` happens on this path (`sends := []`, and nothing is
  dispatched); return `(state, True, True)` with the log unchanged.
  Otherwise append the selector text (or the placeholder when it is empty)
  as an assistant message plus the user-role nudge, and return
  `(state, False, False)`.
- `ask_to_user`: the tool body schedules `messenger.send(message)`; one
  assistant message with the argument text is appended; returns
  `(state, True, False)`.
- `complete`: the tool body is awaited, so `messenger.send(message)` runs;
  the terminal assistant entry is appended; returns `(state, True, True)`.
- `refine_task`: the call itself raises `TypeError` (see
  `refineTaskTypeError`), which the surrounding `try` catches: the failure
  note is appended, then the run note and the `<failed>` user message;
  `current_task` is left unchanged; returns `(state, False, False)`.
- other registered tool: the body runs with outcome `ex`; on success the
  run note and the `<result>` message are appended; on an exception the
  failure note, the run note and the `<failed>` message are appended;
  returns `(state, False, False)` either way.
- unregistered name: the dict lookup fails, only a console print happens,
  and control falls through to the two trailing appends with `results`
  still the empty string: the run note and an empty user message are
  appended; returns `(state, False, False)`. -/
def action (state : AgentLocalState) (no_tool_count : Nat) (sel : SelectOutcome)
    (ex : ExecOutcome) : ActionResult :=
  let copy_messages := state.messages
  let current_task := state.current_task
  match sel with
  | SelectOutcome.noTool all_messages =>
    let cnt := no_tool_count + 1
    if 3 ≤ cnt then
      ActionResult.mk (AgentLocalState.mk copy_messages current_task) true true cnt [] []
    else
      let am := if all_messages = "" then noToolPlaceholder else all_messages
      ActionResult.mk
        (AgentLocalState.mk
          (copy_messages ++
            [Message.mk UserRole.assistant am,
             Message.mk UserRole.user (noToolNudge current_task)])
          current_task)
        false false cnt [] []
  | SelectOutcome.toolCall function_name arguments =>
    if function_name ∈ toolNames then
      if function_name = "ask_to_user" then
        ActionResult.mk
          (AgentLocalState.mk
            (copy_messages ++ [Message.mk UserRole.assistant arguments.message])
            current_task)
          true false 0 [arguments.message] ["ask_to_user"]
      else if function_name = "complete" then
        ActionResult.mk
          (AgentLocalState.mk
            (copy_messages ++ [Message.mk UserRole.assistant (completeNote current_task)])
            current_task)
          true true 0 [arguments.message] ["complete"]
      else if function_name = "refine_task" then
        ActionResult.mk
          (AgentLocalState.mk
            (copy_messages ++
              [Message.mk UserRole.assistant (toolFailNote refineTaskTypeError),
               Message.mk UserRole.assistant (runNote function_name),
               Message.mk UserRole.user (failWrap refineTaskTypeError)])
            current_task)
          false false 0 [] []
      else
        match ex with
        | ExecOutcome.ok output =>
          ActionResult.mk
            (AgentLocalState.mk
              (copy_messages ++
                [Message.mk UserRole.assistant (runNote function_name),
                 Message.mk UserRole.user (toolResultMessage function_name output current_task)])
              current_task)
            false false 0 [] [function_name]
        | ExecOutcome.exn e =>
          ActionResult.mk
            (AgentLocalState.mk
              (copy_messages ++
                [Message.mk UserRole.assistant (toolFailNote e),
                 Message.mk UserRole.assistant (runNote function_name),
                 Message.mk UserRole.user (failWrap e)])
              current_task)
            false false 0 [] [function_name]
    else
      ActionResult.mk
        (AgentLocalState.mk
          (copy_messages ++
            [Message.mk UserRole.assistant (runNote function_name),
             Message.mk UserRole.user ""])
          current_task)
        false false 0 [] []

/-- Result of driving several `ToolCaller.action` calls in sequence, as the
driver loop `agent_process_single_task` does: the final state and counter,
the concatenated send and dispatch traces, and the final
`(wait_for_user, done)` flags. -/
structure RunResult where
  state : AgentLocalState
  no_tool_count : Nat
  sends : List String
  dispatched : List String
  wait_for_user : Bool
  done : Bool
deriving DecidableEq

/-- Drive `action` over a list of per-call inputs (selector outcome plus
generic-dispatch oracle), threading the state and `no_tool_count` and
stopping as the driver loop does as soon as a call returns `done` or
`wait_for_user`. -/
def runFrom (state : AgentLocalState) (no_tool_count : Nat) :
    List (SelectOutcome × ExecOutcome) → RunResult
  | [] => RunResult.mk state no_tool_count [] [] false false
  | (sel, ex) :: rest =>
    let r := action state no_tool_count sel ex
    if r.done || r.wait_for_user then
      RunResult.mk r.state r.no_tool_count r.sends r.dispatched r.wait_for_user r.done
    else
      let rest_r := runFrom r.state r.no_tool_count rest
      RunResult.mk rest_r.state rest_r.no_tool_count (r.sends ++ rest_r.sends)
        (r.dispatched ++ rest_r.dispatched) rest_r.wait_for_user rest_r.done

/-- The update that one `action` call applies to `self.no_tool_count`:
incremented on a no-tool turn, reset to 0 whenever a tool name was
selected. -/
def countStep (c : Nat) (sel : SelectOutcome) : Nat :=
  match sel with
  | SelectOutcome.noTool _ => c + 1
  | SelectOutcome.toolCall _ _ => 0

/-- The value of `self.no_tool_count` after a fresh `ToolCaller`
(counter 0) has processed a list of selector outcomes in order. -/
def countFold (c : Nat) (sels : List SelectOutcome) : Nat :=
  List.foldl countStep c sels

/-- A fixed initial state used for concrete evaluations. -/
def initState : AgentLocalState := AgentLocalState.mk [] "task"

/-- Model of a `pathlib` path after parsing: whether it is absolute, and its
components in order.  `pathlib` drops `.` and empty components when parsing,
but keeps `..` components literally; so `comps` may contain `".."` but not
`"."` or `""`.  The working directory returned by `pathlib.Path.cwd()` is
always absolute and fully resolved (no `..` components). -/
structure PyPath where
  absolute : Bool
  comps : List String
deriving DecidableEq

/-- All proper prefixes of a component list (shortest first).  `pathlib`
orders `Path.parents` from the immediate parent down to the root, but the
source only tests membership, for which the order is irrelevant. -/
def strictPrefixes : List String → List (List String)
  | [] => []
  | x :: xs => [] :: (strictPrefixes xs).map (fun t => x :: t)

/-- Model of `pathlib.PurePath.parents`: the lexical ancestors of the path,
each a proper prefix of its components with the same absoluteness.  No
resolution of `..` or symlinks takes place, exactly as in `pathlib`, where
`parents` is purely lexical and path equality is componentwise. -/
def parents (p : PyPath) : List PyPath :=
  (strictPrefixes p.comps).map (fun c => PyPath.mk p.absolute c)

/-- The denial text returned by `read_file` and `write_file` when the
working directory is not among the lexical parents of the argument path. -/
def sandboxErrorMessage : String :=
  "Error: Access to files outside the current working directory is not allowed."

/-- Result of a `read_file` / `write_file` call: the returned string and
whether the filesystem was touched (an `open` was attempted). -/
structure FileCallResult where
  output : String
  touched : Bool
deriving DecidableEq

/-- Shallow embedding of the `read_file` closure in `ToolCaller.__init__`:
`if cwd not in pathlib.Path(file_path).parents:` return the denial without
opening anything; otherwise `open(...).read()`, whose outcome (contents or
a caught exception rendered via `str(e)`) is the oracle `fs`. -/
def read_file (cwd file_path : PyPath) (fs : ExecOutcome) : FileCallResult :=
  if cwd ∈ parents file_path then
    match fs with
    | ExecOutcome.ok content => FileCallResult.mk content true
    | ExecOutcome.exn e => FileCallResult.mk e true
  else
    FileCallResult.mk sandboxErrorMessage false

/-- Shallow embedding of the `write_file` closure in `ToolCaller.__init__`:
the same lexical guard as `read_file`, then `open(file_path, "w")` and
`file.write(content)`, whose outcome is the oracle `fs`. -/
def write_file (cwd file_path : PyPath) (content : String) (fs : ExecOutcome) :
    FileCallResult :=
  if cwd ∈ parents file_path then
    match fs with
    | ExecOutcome.ok _ => FileCallResult.mk "File written successfully" true
    | ExecOutcome.exn e => FileCallResult.mk e true
  else
    FileCallResult.mk sandboxErrorMessage false

/-- Resolution of `..` components against an accumulated absolute component
list, as performed by the operating system (and by `Path.resolve()`); `..`
at the root stays at the root.  This is the notion of resolved absolute
path that the specification appeals to; the source never computes it. -/
def resolveComps (acc : List String) : List String → List String
  | [] => acc
  | c :: rest =>
    if c = ".." then resolveComps acc.dropLast rest
    else resolveComps (acc ++ [c]) rest

/-- The resolved absolute component list of a path: relative paths are
resolved against the working directory, and `..` components are eliminated
arithmetically. -/
def resolvedAbsolute (cwd p : PyPath) : List String :=
  if p.absolute then resolveComps [] p.comps
  else resolveComps cwd.comps p.comps

/-- The specification predicate for C5: the resolved absolute components
`q` name a strict descendant of the working directory. -/
def specDescendant (cwd : PyPath) (q : List String) : Bool :=
  cwd.comps.isPrefixOf q && !(cwd.comps == q)

/-- Python `not command.strip()`: true exactly when every character of the
command string is whitespace. -/
def pyStripIsEmpty (s : String) : Bool := s.data.all Char.isWhitespace

/-- Helper for `pySplitWhitespace`: split a character list on whitespace
runs, accumulating the current (reversed) token. -/
def tokenizeAux : List Char → List Char → List String
  | [], cur => if cur.isEmpty then [] else [String.mk cur.reverse]
  | c :: rest, cur =>
    if c.isWhitespace then
      if cur.isEmpty then tokenizeAux rest []
      else String.mk cur.reverse :: tokenizeAux rest []
    else
      tokenizeAux rest (c :: cur)

/-- Python `str.split()` with no separator: split on runs of whitespace and
drop empty tokens.  Leading and trailing whitespace produce no tokens, so
`command.strip().split()` and `command.split()` coincide; the embedding
therefore tokenizes the raw command. -/
def pySplitWhitespace (s : String) : List String := tokenizeAux s.data []

/-- Outcome of `subprocess.run(command, shell=True, capture_output=True,
text=True, check=True)`: normal exit 0 with its stdout, a
`CalledProcessError` carrying the non-zero exit code and the captured
stdout/stderr, or any other exception (e.g. `OSError`) with its `str`. -/
inductive SubprocOutcome
  | success (stdout : String)
  | calledProcessError (returncode : Int) (stdout stderr : String)
  | otherError (msg : String)
deriving DecidableEq

/-- Rejection text for an empty command string. -/
def emptyCommandMessage : String := "<failed>\nコマンドが指定されていません\n</failed>"

/-- Rejection text when the first token is not in the allow-list. -/
def notAllowedMessage : String := "<failed>\ncurlまたはwgetは使用できません\n</failed>"

/-- Failure text for a non-zero exit, carrying the exit code and the captured
stdout and stderr of the subprocess. -/
def nonZeroExitMessage (returncode : Int) (out err : String) : String :=
  "<failed>\n終了コード: " ++ toString returncode ++ "\n標準出力:\n" ++ out ++
  "\n標準エラー出力:\n" ++ err ++ "\n</failed>"

/-- Failure text for any other exception raised while running the command. -/
def unexpectedErrorMessage (e : String) : String :=
  "<failed>\nエラーが発生しました:\n" ++ e ++ "\n</failed>"

/-- Success wrapper around the captured stdout. -/
def successMessage (out : String) : String := "<success>\n" ++ out ++ "\n</success>"

/-- The progress notice sent before running an allowed command
(source: `"コマンドを実行します:" + command[:30]`). -/
def commandNotice (command : String) : String :=
  "コマンドを実行します:" ++ String.mk (command.data.take 30)

/-- The fixed allow-list of first tokens accepted by `run_command`. -/
def allowedCommands : List String := ["curl", "wget"]

/-- Result of a `run_command` call: the returned string, whether
`subprocess.run` was reached, and the messenger sends scheduled during the
call. -/
structure RunCommandResult where
  output : String
  invoked : Bool
  sends : List String
deriving DecidableEq

/-- Shallow embedding of the `run_command` closure in `ToolCaller.__init__`:
reject an all-whitespace command; reject unless the first
whitespace-delimited token is `curl` or `wget`; otherwise schedule the
progress notice and run the subprocess, mapping each of the three possible
outcomes to its wrapped result string.  Every exception the `try` block can
raise is caught by one of the two handlers, so the function is total. -/
def run_command (command : String) (sub : SubprocOutcome) : RunCommandResult :=
  if pyStripIsEmpty command then
    RunCommandResult.mk emptyCommandMessage false []
  else
    let first_command := (pySplitWhitespace command).headD ""
    if first_command ∈ allowedCommands then
      match sub with
      | SubprocOutcome.success out =>
        RunCommandResult.mk (successMessage out) true [commandNotice command]
      | SubprocOutcome.calledProcessError code out err =>
        RunCommandResult.mk (nonZeroExitMessage code out err) true [commandNotice command]
      | SubprocOutcome.otherError e =>
        RunCommandResult.mk (unexpectedErrorMessage e) true [commandNotice command]
    else
      RunCommandResult.mk notAllowedMessage false []

/-- A target that `sys.stdout` or `sys.stderr` can point at: the process
defaults, or one of the two `io.StringIO` capture buffers created by
`execute_python_code` (0 for stdout, 1 for stderr). -/
inductive StreamTarget
  | stdoutDefault
  | stderrDefault
  | captureBuffer (id : Nat)
deriving DecidableEq

/-- The mutable interpreter state that `execute_python_code` manipulates:
the current values of `sys.stdout` and `sys.stderr`. -/
structure SysState where
  sys_stdout : StreamTarget
  sys_stderr : StreamTarget
deriving DecidableEq

/-- Behaviour of the string handed to `exec`, which is external input:
the text it writes to the redirected stdout before finishing or raising,
the text it writes to the redirected stderr, whether it raises an
exception (carrying `traceback.format_exc()` of that exception), and
whether it itself reassigns `sys.stdout` / `sys.stderr`. -/
structure CodeBehavior where
  printed : String
  errprinted : String
  raises : Option String
  reassign_stdout : Option StreamTarget
  reassign_stderr : Option StreamTarget
deriving DecidableEq

/-- Shallow embedding of `execute_python_code` (identical in src/main.py and
src/agents/slack_agent/main.py): save the original `sys.stdout` and
`sys.stderr`, redirect both to fresh capture buffers, `exec` the code (the
`except Exception` handler turns a raised exception into its formatted
traceback as the stderr result, with stdout holding whatever was printed
before the exception), and in `finally` restore both streams to the saved
originals, regardless of anything the executed code did to them.  The
returned dictionary is modelled as an association list to make its exact
key set expressible. -/
def execute_python_code (code : CodeBehavior) (sys0 : SysState) :
    List (String × String) × SysState :=
  let original_stdout := sys0.sys_stdout
  let original_stderr := sys0.sys_stderr
  let sysRedirected := SysState.mk (StreamTarget.captureBuffer 0) (StreamTarget.captureBuffer 1)
  let sysAfterExec := SysState.mk
    (match code.reassign_stdout with
     | some t => t
     | none => sysRedirected.sys_stdout)
    (match code.reassign_stderr with
     | some t => t
     | none => sysRedirected.sys_stderr)
  let stdout_result := code.printed
  let stderr_result :=
    match code.raises with
    | none => code.errprinted
    | some tb => tb
  let sysFinal := { sysAfterExec with sys_stdout := original_stdout, sys_stderr := original_stderr }
  (([("stdout", stdout_result), ("stderr", stderr_result)], sysFinal))

/-- The working directory used in concrete sandbox evaluations:
`/home/user`. -/
def cwdEx : PyPath := PyPath.mk true ["home", "user"]

/-- An absolute path that lexically starts with the working directory but
resolves outside it: `/home/user/../etc/passwd`. -/
def traversalEx : PyPath := PyPath.mk true ["home", "user", "..", "etc", "passwd"]

/-- An absolute path inside the working directory: `/home/user/notes.txt`. -/
def insideEx : PyPath := PyPath.mk true ["home", "user", "notes.txt"]

/- ------------------------------------------------------------------ -/
/- Shared lemmas                                                      -/
/- ------------------------------------------------------------------ -/

/-- One `action` call updates `no_tool_count` exactly as `countStep` says,
whatever the state and the dispatch oracle. -/
theorem action_no_tool_count (s : AgentLocalState) (c : Nat) (sel : SelectOutcome)
    (ex : ExecOutcome) : (action s c sel ex).no_tool_count = countStep c sel := by
  cases ex <;> cases sel <;> simp only [action, countStep] <;> split_ifs <;> rfl

/-- Unfolding `countFold` over a sequence ending in one more outcome. -/
theorem countFold_append_single (c : Nat) (l : List SelectOutcome) (b : SelectOutcome) :
    countFold c (l ++ [b]) = countStep (countFold c l) b := by
  simp [countFold, List.foldl_append]

/-- A positive counter after processing a sequence from 0 means the last
processed outcome was a no-tool outcome. -/
theorem countFold_pos_concat (sels : List SelectOutcome) (h : 1 ≤ countFold 0 sels) :
    ∃ l m, sels = l ++ [SelectOutcome.noTool m] := by
  rcases List.eq_nil_or_concat sels with h0 | ⟨L, b, rfl⟩
  · subst h0
    simp [countFold] at h
  · simp only [List.concat_eq_append] at h ⊢
    cases b with
    | noTool m => exact ⟨L, m, rfl⟩
    | toolCall n a =>
      rw [countFold_append_single] at h
      simp [countStep] at h

/-- A counter of at least 2 after processing a sequence from 0 means the
last two processed outcomes were no-tool outcomes. -/
theorem countFold_two_concat (sels : List SelectOutcome) (h : 2 ≤ countFold 0 sels) :
    ∃ l m1 m2, sels = l ++ [SelectOutcome.noTool m1, SelectOutcome.noTool m2] := by
  obtain ⟨L, m2, rfl⟩ := countFold_pos_concat sels (by omega)
  rw [countFold_append_single] at h
  simp only [countStep] at h
  obtain ⟨L2, m1, rfl⟩ := countFold_pos_concat L (by omega)
  exact ⟨L2, m1, m2, by simp⟩

/-- Membership in `strictPrefixes` is exactly being a proper prefix. -/
theorem mem_strictPrefixes (m l : List String) :
    l ∈ strictPrefixes m ↔ l <+: m ∧ l ≠ m := by
  induction m generalizing l with
  | nil => simp [strictPrefixes, List.prefix_nil]
  | cons x xs ih =>
    cases l with
    | nil => simp [strictPrefixes]
    | cons y ys =>
      simp only [strictPrefixes, List.mem_cons, List.mem_map, ih,
        List.cons_prefix_cons, ne_eq, List.cons.injEq]
      constructor
      · rintro (h | ⟨t, ⟨htp, htne⟩, rfl, rfl⟩)
        · exact absurd h (by simp)
        · exact ⟨⟨rfl, htp⟩, by simp [htne]⟩
      · rintro ⟨⟨rfl, hp⟩, hne⟩
        right
        refine ⟨ys, ⟨hp, ?_⟩, rfl, rfl⟩
        simpa using hne

/-- Characterization of the source's guard `cwd in Path(file_path).parents`:
it holds exactly when the path as written has the same absoluteness as the
working directory and the working directory components are a proper literal
prefix of the path components. -/
theorem mem_parents_iff (cwd p : PyPath) :
    cwd ∈ parents p
      ↔ p.absolute = cwd.absolute ∧ cwd.comps <+: p.comps ∧ cwd.comps ≠ p.comps := by
  obtain ⟨a, c⟩ := cwd
  simp only [parents, List.mem_map, mem_strictPrefixes, PyPath.mk.injEq]
  constructor
  · rintro ⟨t, ⟨hp, hne⟩, ha, rfl⟩
    exact ⟨ha, hp, hne⟩
  · rintro ⟨ha, hp, hne⟩
    exact ⟨c, ⟨hp, hne⟩, ha, rfl⟩

/- ------------------------------------------------------------------ -/
/- Claim theorems                                                     -/
/- ------------------------------------------------------------------ -/

/-- C1 (evidence for the code bug): a fresh `ToolCaller` driven through
three consecutive no-tool selector outcomes, regardless of their text
content, does return `done = true` on the third call with no tool body
ever dispatched — but the send trace of the whole run is empty, so the
canned "terminated after repeated non-productive turns" message never
reaches the messenger: the source invokes the async `complete` without
`await` on this path, which only creates a coroutine and never runs
`messenger.send`. -/
theorem c1_three_strikes_terminate_without_send (t1 t2 t3 : String) (ex : ExecOutcome) :
    (runFrom initState 0 [(SelectOutcome.noTool t1, ex), (SelectOutcome.noTool t2, ex),
        (SelectOutcome.noTool t3, ex)]).done = true
    ∧ (runFrom initState 0 [(SelectOutcome.noTool t1, ex), (SelectOutcome.noTool t2, ex),
        (SelectOutcome.noTool t3, ex)]).sends = []
    ∧ (runFrom initState 0 [(SelectOutcome.noTool t1, ex), (SelectOutcome.noTool t2, ex),
        (SelectOutcome.noTool t3, ex)]).dispatched = []
    ∧ cannedTerminationMessage ∉ (runFrom initState 0 [(SelectOutcome.noTool t1, ex),
        (SelectOutcome.noTool t2, ex), (SelectOutcome.noTool t3, ex)]).sends := by
  refine ⟨?_, ?_, ?_, ?_⟩ <;> norm_num [runFrom, action]

/-- C2: when `select_tool` returns a tool name, `ToolCaller.action` leaves
`no_tool_count` at 0 after the call (first conjunct); consequently, for a
fresh `ToolCaller` that has processed any sequence `sels` of selector
outcomes (so its counter is `countFold 0 sels`), a further no-tool call can
take the forced-termination branch only if the last two outcomes of `sels`
were also no-tool: termination requires 3 consecutive no-tool turns, never
3 turns separated by a tool selection. -/
theorem c2_streak_reset_and_consecutive :
    (∀ (s : AgentLocalState) (c : Nat) (n : String) (a : ToolArgs) (ex : ExecOutcome),
      (action s c (SelectOutcome.toolCall n a) ex).no_tool_count = 0)
    ∧ (∀ (s : AgentLocalState) (sels : List SelectOutcome) (m : String) (ex : ExecOutcome),
      (action s (countFold 0 sels) (SelectOutcome.noTool m) ex).done = true →
      ∃ l m1 m2, sels = l ++ [SelectOutcome.noTool m1, SelectOutcome.noTool m2]) := by
  constructor
  · intro s c n a ex
    simpa [countStep] using action_no_tool_count s c (SelectOutcome.toolCall n a) ex
  · intro s sels m ex hdone
    by_cases h3 : 3 ≤ countFold 0 sels + 1
    · exact countFold_two_concat sels (by omega)
    · exfalso
      simp [action, h3] at hdone

/-- Witness for C2 at concrete inputs: selecting `read_file` resets the
counter from 5 to 0, and a termination fired after the two processed
outcomes `noTool "a", noTool "b"` exhibits them as trailing no-tool
outcomes. -/
theorem c2_streak_reset_and_consecutive_witness :
    (action initState 5 (SelectOutcome.toolCall "read_file" (ToolArgs.mk "" "" ""))
        (ExecOutcome.ok "")).no_tool_count = 0
    ∧ ∃ l m1 m2, [SelectOutcome.noTool "a", SelectOutcome.noTool "b"]
        = l ++ [SelectOutcome.noTool m1, SelectOutcome.noTool m2] :=
  And.intro
    (c2_streak_reset_and_consecutive.1 initState 5 "read_file" (ToolArgs.mk "" "" "")
      (ExecOutcome.ok ""))
    (c2_streak_reset_and_consecutive.2 initState
      [SelectOutcome.noTool "a", SelectOutcome.noTool "b"] "c" (ExecOutcome.ok "")
      (by rfl))

/-- C3: selecting `ask_to_user` with argument message `m` returns
`wait_for_user = true` and `done = false`, appends exactly one
assistant-role message whose content is `m` to the returned log, and
pushes `m` (and nothing else) to the messenger. -/
theorem c3_ask_to_user_pause (s : AgentLocalState) (c : Nat) (a : ToolArgs)
    (ex : ExecOutcome) :
    (action s c (SelectOutcome.toolCall "ask_to_user" a) ex).wait_for_user = true
    ∧ (action s c (SelectOutcome.toolCall "ask_to_user" a) ex).done = false
    ∧ (action s c (SelectOutcome.toolCall "ask_to_user" a) ex).state.messages
        = s.messages ++ [Message.mk UserRole.assistant a.message]
    ∧ (action s c (SelectOutcome.toolCall "ask_to_user" a) ex).sends = [a.message] := by
  refine ⟨?_, ?_, ?_, ?_⟩ <;> rfl

/-- C4: selecting `complete` with argument message `m` returns
`done = true`, the awaited tool body invokes `messenger.send` with `m`
exactly once, and exactly one terminal assistant entry is appended to the
returned log. -/
theorem c4_complete_done (s : AgentLocalState) (c : Nat) (a : ToolArgs)
    (ex : ExecOutcome) :
    (action s c (SelectOutcome.toolCall "complete" a) ex).done = true
    ∧ (action s c (SelectOutcome.toolCall "complete" a) ex).sends = [a.message]
    ∧ (action s c (SelectOutcome.toolCall "complete" a) ex).state.messages
        = s.messages ++ [Message.mk UserRole.assistant (completeNote s.current_task)] := by
  refine ⟨?_, ?_, ?_⟩ <;> rfl

/-- C5 (counterexample): with working directory `/home/user`, the path
`/home/user/../etc/passwd` resolves to `/etc/passwd`, outside the working
directory, so the claim demands a denial without touching the filesystem;
but the lexical guard `cwd in Path(file_path).parents` accepts it (the
working directory is literally among the written parents) and the file is
opened.  The claimed equivalence is therefore false at this input. -/
theorem c5_sandbox_counterexample :
    ¬ (((read_file cwdEx traversalEx (ExecOutcome.ok "secret")).output = sandboxErrorMessage
        ∧ (read_file cwdEx traversalEx (ExecOutcome.ok "secret")).touched = false)
      ↔ specDescendant cwdEx (resolvedAbsolute cwdEx traversalEx) = false) := by
  decide

/-- C5 (amended): `read_file` and `write_file` return the textual denial
without touching the filesystem exactly when the working directory is not a
lexical ancestor of the path as written — that is, unless the path is
absolute and the working directory components are a proper literal prefix of
its components.  No resolution is performed: `..` components are not
interpreted (so absolute paths that traverse outside the working directory
are accepted) and relative paths are always denied, even when they resolve
inside the working directory. -/
theorem c5_sandbox_is_lexical (cwd p : PyPath) (content : String) (fsR fsW : ExecOutcome)
    (hcwd : cwd.absolute = true) :
    (((read_file cwd p fsR).output = sandboxErrorMessage
        ∧ (read_file cwd p fsR).touched = false)
      ↔ ¬ (p.absolute = true ∧ cwd.comps <+: p.comps ∧ cwd.comps ≠ p.comps))
    ∧ (((write_file cwd p content fsW).output = sandboxErrorMessage
        ∧ (write_file cwd p content fsW).touched = false)
      ↔ ¬ (p.absolute = true ∧ cwd.comps <+: p.comps ∧ cwd.comps ≠ p.comps)) := by
  have hchar : cwd ∈ parents p
      ↔ (p.absolute = true ∧ cwd.comps <+: p.comps ∧ cwd.comps ≠ p.comps) := by
    rw [mem_parents_iff, hcwd]
  by_cases hmem : cwd ∈ parents p
  · have hstuff := hchar.mp hmem
    constructor
    · cases fsR <;> simp [read_file, hmem, hstuff]
    · cases fsW <;> simp [write_file, hmem, hstuff]
  · have hns : ¬ (p.absolute = true ∧ cwd.comps <+: p.comps ∧ cwd.comps ≠ p.comps) :=
      fun hs => hmem (hchar.mpr hs)
    constructor
    · simp [read_file, hmem, hns]
    · simp [write_file, hmem, hns]

/-- Witness for C5 (amended) at concrete inputs: working directory
`/home/user` and path `/home/user/notes.txt`. -/
theorem c5_sandbox_is_lexical_witness :
    (((read_file cwdEx insideEx (ExecOutcome.ok "data")).output = sandboxErrorMessage
        ∧ (read_file cwdEx insideEx (ExecOutcome.ok "data")).touched = false)
      ↔ ¬ (insideEx.absolute = true ∧ cwdEx.comps <+: insideEx.comps
            ∧ cwdEx.comps ≠ insideEx.comps))
    ∧ (((write_file cwdEx insideEx "hello" (ExecOutcome.ok "")).output = sandboxErrorMessage
        ∧ (write_file cwdEx insideEx "hello" (ExecOutcome.ok "")).touched = false)
      ↔ ¬ (insideEx.absolute = true ∧ cwdEx.comps <+: insideEx.comps
            ∧ cwdEx.comps ≠ insideEx.comps)) :=
  c5_sandbox_is_lexical cwdEx insideEx "hello" (ExecOutcome.ok "data") (ExecOutcome.ok "")
    (by decide)

/-- C6: `run_command` rejects an empty (all-whitespace) command with the
fixed failure string, without reaching `subprocess.run` (first conjunct);
whenever the first whitespace-delimited token is not `curl` or `wget`, no
subprocess is invoked and the result is one of the two rejection strings
(second conjunct); an allowed command that exits non-zero produces the
failure string carrying the exit code and the captured stdout and stderr
(third conjunct); and for every input the result is one of the five
enumerated wrapped strings — both exception handlers convert their
exception into a returned string, so nothing propagates (fourth
conjunct). -/
theorem c6_run_command_policy (command : String) (sub : SubprocOutcome) :
    (pyStripIsEmpty command = true →
      run_command command sub = RunCommandResult.mk emptyCommandMessage false [])
    ∧ ((pySplitWhitespace command).headD "" ∉ allowedCommands →
      (run_command command sub).invoked = false
        ∧ ((run_command command sub).output = emptyCommandMessage
           ∨ (run_command command sub).output = notAllowedMessage))
    ∧ (∀ (code : Int) (out err : String), pyStripIsEmpty command = false →
        (pySplitWhitespace command).headD "" ∈ allowedCommands →
        sub = SubprocOutcome.calledProcessError code out err →
        (run_command command sub).output = nonZeroExitMessage code out err)
    ∧ ((run_command command sub).output = emptyCommandMessage
       ∨ (run_command command sub).output = notAllowedMessage
       ∨ (∃ out, sub = SubprocOutcome.success out
            ∧ (run_command command sub).output = successMessage out)
       ∨ (∃ code out err, sub = SubprocOutcome.calledProcessError code out err
            ∧ (run_command command sub).output = nonZeroExitMessage code out err)
       ∨ (∃ e, sub = SubprocOutcome.otherError e
            ∧ (run_command command sub).output = unexpectedErrorMessage e)) := by
  refine ⟨?_, ?_, ?_, ?_⟩
  · intro h
    simp [run_command, h]
  · intro h
    replace h : (pySplitWhitespace command).head?.getD "" ∉ allowedCommands := by
      simpa using h
    by_cases he : pyStripIsEmpty command = true
    · simp [run_command, he]
    · simp only [Bool.not_eq_true] at he
      simp [run_command, he, h]
  · rintro code out err he hmem rfl
    replace hmem : (pySplitWhitespace command).head?.getD "" ∈ allowedCommands := by
      simpa using hmem
    simp [run_command, he, hmem]
  · by_cases he : pyStripIsEmpty command = true
    · simp [run_command, he]
    · simp only [Bool.not_eq_true] at he
      by_cases hmem : (pySplitWhitespace command).head?.getD "" ∈ allowedCommands
      · cases sub with
        | success out => simp [run_command, he, hmem]
        | calledProcessError code out err =>
          have hout : (run_command command
              (SubprocOutcome.calledProcessError code out err)).output
              = nonZeroExitMessage code out err := by
            simp [run_command, he, hmem]
          exact Or.inr (Or.inr (Or.inr (Or.inl ⟨code, out, err, rfl, hout⟩)))
        | otherError e => simp [run_command, he, hmem]
      · simp [run_command, he, hmem]

/-- Witness for C6 at concrete inputs: an all-whitespace command, a
disallowed command, and an allowed command exiting with code 7. -/
theorem c6_run_command_policy_witness :
    run_command "   " (SubprocOutcome.success "")
        = RunCommandResult.mk emptyCommandMessage false []
    ∧ ((run_command "rm -rf /tmp/x" (SubprocOutcome.success "")).invoked = false
       ∧ ((run_command "rm -rf /tmp/x" (SubprocOutcome.success "")).output = emptyCommandMessage
          ∨ (run_command "rm -rf /tmp/x" (SubprocOutcome.success "")).output = notAllowedMessage))
    ∧ (run_command "curl http://example.com"
          (SubprocOutcome.calledProcessError 7 "o" "e")).output
        = nonZeroExitMessage 7 "o" "e" :=
  And.intro
    ((c6_run_command_policy "   " (SubprocOutcome.success "")).1 (by decide))
    (And.intro
      ((c6_run_command_policy "rm -rf /tmp/x" (SubprocOutcome.success "")).2.1 (by decide))
      ((c6_run_command_policy "curl http://example.com"
          (SubprocOutcome.calledProcessError 7 "o" "e")).2.2.1 7 "o" "e"
        (by decide) (by decide) rfl))

/-- C7: when a registered tool other than the three special-cased ones is
selected and its body raises, the exception stays inside `action`: the log
gains the failure note, the run note, and the `<failed>`-wrapped user
message, and the call returns `done = false` and `wait_for_user = false`,
so the loop can continue. -/
theorem c7_tool_exception_isolated (s : AgentLocalState) (c : Nat) (name : String)
    (a : ToolArgs) (e : String) (hmem : name ∈ toolNames) (h1 : name ≠ "ask_to_user")
    (h2 : name ≠ "complete") (h3 : name ≠ "refine_task") :
    (action s c (SelectOutcome.toolCall name a) (ExecOutcome.exn e)).done = false
    ∧ (action s c (SelectOutcome.toolCall name a) (ExecOutcome.exn e)).wait_for_user = false
    ∧ (action s c (SelectOutcome.toolCall name a) (ExecOutcome.exn e)).state.messages
        = s.messages ++ [Message.mk UserRole.assistant (toolFailNote e),
            Message.mk UserRole.assistant (runNote name),
            Message.mk UserRole.user (failWrap e)] := by
  refine ⟨?_, ?_, ?_⟩ <;> simp [action, hmem, h1, h2, h3]

/-- Witness for C7 at a concrete input: `read_file` raising `boom`. -/
theorem c7_tool_exception_isolated_witness :
    (action initState 0 (SelectOutcome.toolCall "read_file" (ToolArgs.mk "" "" ""))
        (ExecOutcome.exn "boom")).done = false
    ∧ (action initState 0 (SelectOutcome.toolCall "read_file" (ToolArgs.mk "" "" ""))
        (ExecOutcome.exn "boom")).wait_for_user = false
    ∧ (action initState 0 (SelectOutcome.toolCall "read_file" (ToolArgs.mk "" "" ""))
        (ExecOutcome.exn "boom")).state.messages
        = initState.messages ++ [Message.mk UserRole.assistant (toolFailNote "boom"),
            Message.mk UserRole.assistant (runNote "read_file"),
            Message.mk UserRole.user (failWrap "boom")] :=
  c7_tool_exception_isolated initState 0 "read_file" (ToolArgs.mk "" "" "") "boom"
    (by decide) (by decide) (by decide) (by decide)

/-- C8 (evidence for the code bug): selecting `refine_task` with arguments
`current_task` and `context` does not update the task: the dispatch call
raises `TypeError` (the closure demands a `self` argument that the call
never passes), the surrounding handler catches it, the log records the
failure — never the "タスクを更新しました" note of the unreachable success
branch — and the call returns `done = false`, `wait_for_user = false` with
`current_task` unchanged. -/
theorem c8_refine_dispatch_raises :
    (action (AgentLocalState.mk [] "orig") 0
        (SelectOutcome.toolCall "refine_task" (ToolArgs.mk "" "orig" "ctx"))
        (ExecOutcome.ok "nested")).state.current_task = "orig"
    ∧ (action (AgentLocalState.mk [] "orig") 0
        (SelectOutcome.toolCall "refine_task" (ToolArgs.mk "" "orig" "ctx"))
        (ExecOutcome.ok "nested")).done = false
    ∧ (action (AgentLocalState.mk [] "orig") 0
        (SelectOutcome.toolCall "refine_task" (ToolArgs.mk "" "orig" "ctx"))
        (ExecOutcome.ok "nested")).wait_for_user = false
    ∧ Message.mk UserRole.assistant "タスクを更新しました"
        ∉ (action (AgentLocalState.mk [] "orig") 0
            (SelectOutcome.toolCall "refine_task" (ToolArgs.mk "" "orig" "ctx"))
            (ExecOutcome.ok "nested")).state.messages
    ∧ (action (AgentLocalState.mk [] "orig") 0
        (SelectOutcome.toolCall "refine_task" (ToolArgs.mk "" "orig" "ctx"))
        (ExecOutcome.ok "nested")).state.messages
        = [Message.mk UserRole.assistant (toolFailNote refineTaskTypeError),
           Message.mk UserRole.assistant (runNote "refine_task"),
           Message.mk UserRole.user (failWrap refineTaskTypeError)] := by
  decide

/-- C9 (counterexample): the claim says an unknown selected tool name
produces no log change beyond the selector's own diagnostic (a console
print), but the unknown-name branch still falls through to the two
trailing appends: the returned log is not the input log. -/
theorem c9_unknown_tool_counterexample :
    ¬ ((action (AgentLocalState.mk [Message.mk UserRole.system "sys"] "t") 1
        (SelectOutcome.toolCall "frobnicate" (ToolArgs.mk "" "" ""))
        (ExecOutcome.ok "")).state.messages
      = [Message.mk UserRole.system "sys"]) := by
  decide

/-- C9 (amended): when the selected tool name is not registered, `action`
does not crash, returns `done = false` and `wait_for_user = false`, resets
`no_tool_count` to 0 (in particular it is not incremented), leaves
`current_task` unchanged, dispatches nothing — and appends exactly two
entries to the log: the assistant run note for the unknown name and a
user message with empty content. -/
theorem c9_unknown_tool_skipped (s : AgentLocalState) (c : Nat) (name : String)
    (a : ToolArgs) (ex : ExecOutcome) (h : name ∉ toolNames) :
    (action s c (SelectOutcome.toolCall name a) ex).done = false
    ∧ (action s c (SelectOutcome.toolCall name a) ex).wait_for_user = false
    ∧ (action s c (SelectOutcome.toolCall name a) ex).no_tool_count = 0
    ∧ (action s c (SelectOutcome.toolCall name a) ex).state.current_task = s.current_task
    ∧ (action s c (SelectOutcome.toolCall name a) ex).dispatched = []
    ∧ (action s c (SelectOutcome.toolCall name a) ex).state.messages
        = s.messages ++ [Message.mk UserRole.assistant (runNote name),
            Message.mk UserRole.user ""] := by
  refine ⟨?_, ?_, ?_, ?_, ?_, ?_⟩ <;> simp [action, h]

/-- Witness for C9 (amended) at a concrete input: the unregistered name
`frobnicate`. -/
theorem c9_unknown_tool_skipped_witness :
    (action initState 2 (SelectOutcome.toolCall "frobnicate" (ToolArgs.mk "" "" ""))
        (ExecOutcome.ok "")).done = false
    ∧ (action initState 2 (SelectOutcome.toolCall "frobnicate" (ToolArgs.mk "" "" ""))
        (ExecOutcome.ok "")).wait_for_user = false
    ∧ (action initState 2 (SelectOutcome.toolCall "frobnicate" (ToolArgs.mk "" "" ""))
        (ExecOutcome.ok "")).no_tool_count = 0
    ∧ (action initState 2 (SelectOutcome.toolCall "frobnicate" (ToolArgs.mk "" "" ""))
        (ExecOutcome.ok "")).state.current_task = initState.current_task
    ∧ (action initState 2 (SelectOutcome.toolCall "frobnicate" (ToolArgs.mk "" "" ""))
        (ExecOutcome.ok "")).dispatched = []
    ∧ (action initState 2 (SelectOutcome.toolCall "frobnicate" (ToolArgs.mk "" "" ""))
        (ExecOutcome.ok "")).state.messages
        = initState.messages ++ [Message.mk UserRole.assistant (runNote "frobnicate"),
            Message.mk UserRole.user ""] :=
  c9_unknown_tool_skipped initState 2 "frobnicate" (ToolArgs.mk "" "" "")
    (ExecOutcome.ok "") (by decide)

/-- C10: `execute_python_code` returns a dictionary whose keys are exactly
`stdout` and `stderr`; an exception raised by the executed code is caught,
with the formatted traceback as the `stderr` value and the text printed
before the exception as the `stdout` value; a normal run returns the two
captured texts; and `sys.stdout` / `sys.stderr` are restored to their
entry values after every call, even when the executed code reassigned
them. -/
theorem c10_execute_python_code_contract (code : CodeBehavior) (sys0 : SysState) :
    (execute_python_code code sys0).1.map Prod.fst = ["stdout", "stderr"]
    ∧ (execute_python_code code sys0).2 = sys0
    ∧ (∀ tb, code.raises = some tb →
        (execute_python_code code sys0).1 = [("stdout", code.printed), ("stderr", tb)])
    ∧ (code.raises = none →
        (execute_python_code code sys0).1
          = [("stdout", code.printed), ("stderr", code.errprinted)]) := by
  refine ⟨rfl, rfl, ?_, ?_⟩
  · intro tb h
    simp [execute_python_code, h]
  · intro h
    simp [execute_python_code, h]

/-- Witness for C10 at concrete inputs: code that prints, reassigns
`sys.stdout`, and raises; and code that runs normally. -/
theorem c10_execute_python_code_contract_witness :
    (execute_python_code
        (CodeBehavior.mk "before crash" "" (some "ZeroDivisionError traceback")
          (some StreamTarget.stderrDefault) none)
        (SysState.mk StreamTarget.stdoutDefault StreamTarget.stderrDefault)).1
      = [("stdout", "before crash"), ("stderr", "ZeroDivisionError traceback")]
    ∧ (execute_python_code
        (CodeBehavior.mk "hello" "warn" none none none)
        (SysState.mk StreamTarget.stdoutDefault StreamTarget.stderrDefault)).1
      = [("stdout", "hello"), ("stderr", "warn")] :=
  And.intro
    ((c10_execute_python_code_contract
        (CodeBehavior.mk "before crash" "" (some "ZeroDivisionError traceback")
          (some StreamTarget.stderrDefault) none)
        (SysState.mk StreamTarget.stdoutDefault StreamTarget.stderrDefault)).2.2.1
      "ZeroDivisionError traceback" rfl)
    ((c10_execute_python_code_contract
        (CodeBehavior.mk "hello" "warn" none none none)
        (SysState.mk StreamTarget.stdoutDefault StreamTarget.stderrDefault)).2.2.2 rfl)

end SearchAgent
